import Mathlib

/-!
# AutoSRE backend — shallow embedding and verification

This file embeds the core of the AutoSRE backend (`backend/main.py` and
`backend/app/main.py`) in Lean 4 and proves properties of the embedded
functions.  The two Python files define textually identical copies of
`parse_logs`, `analyze_logs_simple` and `analyze_logs`; those are embedded
once.  Where the two files differ (the WebSocket update path and the HTTP
endpoints) both variants are embedded, suffixed `_main` and `_app`.

Modelling conventions:
* Python `str` is Lean `String` (a list of characters); `str.splitlines`
  is embedded including the two-character `"\r\n"` boundary and the
  one-character Unicode boundaries Python recognises.
* The regex character class `\s` is embedded as the set of whitespace
  characters Python's `re` module matches; `\d` is embedded as the ASCII
  digits `0`–`9` (non-ASCII decimal digits never occur in the inputs the
  specification talks about).
* Python `dict` (insertion ordered) is an association list; Python `set`
  of alert ids is a duplicate-free `List String`.
* Python floats are embedded as exact rationals `ℚ`; the `.1f` format is
  embedded as exact banker's rounding at one decimal, which agrees with
  CPython on every value exercised here.
* Timestamp fields (`datetime.now()` / `datetime.utcnow()`) are pure IO
  noise for every property below and are omitted from the embedded records.
-/

namespace AutoSRE

/-- Characters matched by the Python regex class `\s` (Unicode whitespace). -/
def isPySpace (c : Char) : Bool :=
  c = ' ' || c = '\t' || c = '\n' || c = '\x0b' || c = '\x0c' || c = '\r' ||
  c = '\x1c' || c = '\x1d' || c = '\x1e' || c = '\x1f' || c = '\x85' || c = '\xa0' ||
  c = '\u1680' || ('\u2000' ≤ c && c ≤ '\u200a') || c = '\u2028' || c = '\u2029' ||
  c = '\u202f' || c = '\u205f' || c = '\u3000'

/-- Characters matched by the regex class `\d`, restricted to ASCII. -/
def isPyDigit (c : Char) : Bool := '0' ≤ c && c ≤ '9'

/-- Line boundary characters of Python `str.splitlines`
(other than the two-character boundary `"\r\n"`). -/
def isLineBoundary (c : Char) : Bool :=
  c = '\n' || c = '\r' || c = '\x0b' || c = '\x0c' || c = '\x1c' || c = '\x1d' ||
  c = '\x1e' || c = '\x85' || c = '\u2028' || c = '\u2029'

/-- Python `str.splitlines` on a character list: boundaries are dropped,
`"\r\n"` counts as a single boundary, a trailing boundary does not produce
an extra empty line, and the empty string yields no lines. -/
def splitlinesList : List Char → List (List Char)
  | [] => []
  | '\r' :: '\n' :: rest => [] :: splitlinesList rest
  | c :: rest =>
    if isLineBoundary c then [] :: splitlinesList rest
    else
      match splitlinesList rest with
      | [] => [[c]]
      | l :: ls => (c :: l) :: ls

/-- Embedding of `logs.splitlines()` on strings. -/
def pySplitlines (s : String) : List String :=
  (splitlinesList s.data).map String.mk

/-- One attempt of the pattern `"\s(\d{3})\s` at the head of the list:
a double quote, one whitespace, three digits, one whitespace.  Returns the
captured three-digit group. -/
def statusMatchAt : List Char → Option String
  | q :: s1 :: d1 :: d2 :: d3 :: s2 :: _ =>
    if q = '"' && isPySpace s1 && isPyDigit d1 && isPyDigit d2 && isPyDigit d3 &&
        isPySpace s2 then
      some (String.mk [d1, d2, d3])
    else none
  | _ => none

/-- Embedding of `re.search(r'"\s(\d{3})\s', line)`: scan left to right, return the
captured group of the leftmost match. -/
def statusSearch : List Char → Option String
  | [] => none
  | c :: rest =>
    match statusMatchAt (c :: rest) with
    | some s => some s
    | none => statusSearch rest

/-- One attempt of the pattern `\s5\d{2}\s` at the head of the list. -/
def serverErrAt : List Char → Bool
  | s1 :: c5 :: d1 :: d2 :: s2 :: _ =>
    isPySpace s1 && c5 = '5' && isPyDigit d1 && isPyDigit d2 && isPySpace s2
  | _ => false

/-- Embedding of `re.search(r'\s5\d{2}\s', line)` viewed as a Boolean test. -/
def serverErrSearch : List Char → Bool
  | [] => false
  | c :: rest => serverErrAt (c :: rest) || serverErrSearch rest

/-- Embedding of `parse_logs` (identical in both backend files): keep the lines on which
`re.search(r'\s5\d{2}\s', line)` succeeds. -/
def parse_logs (logs : String) : List String :=
  (pySplitlines logs).filter (fun line => serverErrSearch line.data)

/-- Embedding of `status.startswith('4') or status.startswith('5')`. -/
def isErrStatus (s : String) : Bool :=
  match s.data with
  | c :: _ => c = '4' || c = '5'
  | [] => false

/-- Embedding of `status_counts[status] = status_counts.get(status, 0) + 1` on an
insertion-ordered association list. -/
def bumpCount : List (String × Nat) → String → List (String × Nat)
  | [], s => [(s, 1)]
  | (k, v) :: rest, s =>
    if k = s then (k, v + 1) :: rest else (k, v) :: bumpCount rest s

/-- The shared counting loop of `analyze_logs` / `analyze_logs_simple`:
walk the lines, tally the status-code distribution, and collect the lines
whose status starts with `'4'` or `'5'` (in order) into `errs`. -/
def tally : List String → List (String × Nat) → List String →
    List (String × Nat) × List String
  | [], counts, errs => (counts, errs)
  | line :: rest, counts, errs =>
    match statusSearch line.data with
    | none => tally rest counts errs
    | some st =>
      tally rest (bumpCount counts st)
        (if isErrStatus st then errs ++ [line] else errs)

/-- The statistics record produced by `analyze_logs` (the `timestamp` field
is omitted, see the file header). -/
structure Snapshot where
  total_requests : Nat
  status_code_distribution : List (String × Nat)
  error_count : Nat
  success_rate : ℚ
deriving DecidableEq, Repr

/-- Embedding of `analyze_logs` (identical in both backend files). -/
def analyze_logs (logs : String) : Snapshot :=
  let lines := pySplitlines logs
  let total := lines.length
  let r := tally lines [] []
  { total_requests := total
    status_code_distribution := r.1
    error_count := r.2.length
    success_rate :=
      if 0 < total then ((total : ℚ) - (r.2.length : ℚ)) / (total : ℚ) * 100 else 0 }

/-- Model of Python `str(n)` for a natural number: most significant digit
first, one digit `'0'` for zero. -/
def natDigitChar (n : Nat) : Char := Char.ofNat (48 + n)

def natReprGo : Nat → Nat → List Char → List Char
  | 0, _, acc => acc
  | fuel + 1, n, acc =>
    if n < 10 then natDigitChar n :: acc
    else natReprGo fuel (n / 10) (natDigitChar (n % 10) :: acc)

/-- The digit string of `n`; `n + 1` units of fuel always suffice because
the argument at least halves at every recursive step. -/
def natRepr (n : Nat) : String := String.mk (natReprGo (n + 1) n [])

/-- Floor of a rational (the denominator of `ℚ` is positive, so flooring
division of the numerator gives the floor). -/
def ratFloor (q : ℚ) : ℤ := Int.fdiv q.num (q.den : ℤ)

/-- Round to the nearest integer, ties to the even integer (the rounding
CPython's fixed-point formatting performs). -/
def roundHalfEven (q : ℚ) : ℤ :=
  let f : ℤ := ratFloor q
  let frac : ℚ := q - (f : ℚ)
  if frac < 1 / 2 then f
  else if 1 / 2 < frac then f + 1
  else if f % 2 = 0 then f else f + 1

/-- Model of the Python format `f"{x:.1f}"` on an exact rational. -/
def format1 (q : ℚ) : String :=
  let n : ℤ := roundHalfEven (q * 10)
  let sign : String := if n < 0 then "-" else ""
  let m : Nat := n.natAbs
  sign ++ natRepr (m / 10) ++ "." ++ natRepr (m % 10)

/-- The fixed prefix of the error-code line of the summary. -/
def errCodesMarker : String := "- Most common error status codes: "

/-- Relation for sorting by descending count: `countGE a b` means `a` may be
placed before `b`; a stable sort with this relation is exactly Python's
`sorted(items, key=lambda x: x[1], reverse=True)`. -/
def countGE (a b : String × Nat) : Prop := b.2 ≤ a.2

instance : DecidableRel countGE := fun a b => inferInstanceAs (Decidable (b.2 ≤ a.2))

instance : IsTotal (String × Nat) countGE :=
  ⟨fun a b => Nat.le_total b.2 a.2⟩

instance : IsTrans (String × Nat) countGE :=
  ⟨fun _ _ _ hab hbc => le_trans hbc hab⟩

/-- Embedding of `[k for k, v in sorted(status_counts.items(), key=lambda x: x[1],
reverse=True) if k.startswith('4') or k.startswith('5')][:3]` — the code's
computation: sort everything, then filter, then truncate. -/
def errTop3 (counts : List (String × Nat)) : List String :=
  ((((List.insertionSort countGE counts).filter fun kv => isErrStatus kv.1).map
    Prod.fst).take 3)

/-- Embedding of Python `sep.join(xs)`. -/
def joinSep (sep : String) : List String → String
  | [] => ""
  | [x] => x
  | x :: xs => x ++ sep ++ joinSep sep xs

/-- Embedding of `analyze_logs_simple` (identical in both backend files). -/
def analyze_logs_simple (logs : String) : String :=
  let lines := pySplitlines logs
  let total := lines.length
  let r := tally lines [] []
  let success_rate : ℚ :=
    if 0 < total then ((total : ℚ) - (r.2.length : ℚ)) / (total : ℚ) * 100 else 0
  let base : String :=
    "Log Analysis Summary:\n" ++
    "- Total requests: " ++ natRepr total ++ "\n" ++
    "- Error requests: " ++ natRepr r.2.length ++ "\n" ++
    "- Success rate: " ++ format1 success_rate ++ "%\n"
  if r.2.isEmpty then base
  else base ++ errCodesMarker ++ joinSep ", " (errTop3 r.1) ++ "\n"

/-! ## AlertManager (`backend/main.py`, lines 63–123) -/

/-- Alert thresholds from the `ALERT_THRESHOLDS` dict. -/
def thresholdCpu : ℚ := 80

def thresholdMemory : ℚ := 85

def thresholdErrorRate : ℚ := 10

/-- The metrics dict as consumed by `check_alerts`: the code reads
`metrics.get("cpu", ...).get("usage_percent", 0)`, so a missing key (either
level) is the same as the value `0`, embedded as `Option.getD _ 0`. -/
structure Metrics where
  cpu_usage_percent : Option ℚ
  memory_usage_percent : Option ℚ
deriving DecidableEq, Repr

/-- An alert dict as appended by `check_alerts` (the `timestamp` field is
omitted, see the file header). -/
structure AlertEvent where
  id : String
  type : String
  title : String
  message : String
deriving DecidableEq, Repr

/-- The alert built in the CPU branch of `check_alerts`. -/
def cpuAlertEvent (u : ℚ) : AlertEvent :=
  { id := "high_cpu", type := "warning", title := "High CPU Usage",
    message := "CPU usage is " ++ format1 u ++ "%" }

/-- The alert built in the memory branch of `check_alerts`. -/
def memoryAlertEvent (u : ℚ) : AlertEvent :=
  { id := "high_memory", type := "warning", title := "High Memory Usage",
    message := "Memory usage is " ++ format1 u ++ "%" }

/-- The alert built in the error-rate branch of `check_alerts`. -/
def errorRateAlertEvent (successRate : ℚ) : AlertEvent :=
  { id := "high_error_rate", type := "critical", title := "High Error Rate",
    message := "Error rate is " ++ format1 (100 - successRate) ++ "%" }

/-- Embedding of `set.add` on a duplicate-free list. -/
def setAdd (l : List String) (x : String) : List String :=
  if x ∈ l then l else l ++ [x]

/-- Embedding of `set.discard` on a duplicate-free list. -/
def setDiscard (l : List String) (x : String) : List String := l.erase x

/-- One alert block of `check_alerts` — each of the three Python blocks
has exactly this shape: if the condition holds and the id is not active,
emit one event and add the id; if it holds and the id is already active,
emit nothing and keep the set; otherwise discard the id and emit nothing. -/
def alertStep (cond : Prop) [Decidable cond] (rid : String) (ev : AlertEvent)
    (st : List String) : List AlertEvent × List String :=
  if cond then
    if rid ∈ st then ([], st) else ([ev], setAdd st rid)
  else ([], setDiscard st rid)

/-- Embedding of the error-rate guard
`analysis and analysis.get("success_rate", 100) < (100 - ALERT_THRESHOLDS["error_rate"])`:
a falsy/absent analysis dict (embedded `none`) short-circuits to false. -/
def errRateCond (analysis : Option ℚ) : Prop :=
  match analysis with
  | none => False
  | some r => r < 100 - thresholdErrorRate

instance (a : Option ℚ) : Decidable (errRateCond a) :=
  match a with
  | none => inferInstanceAs (Decidable False)
  | some r => inferInstanceAs (Decidable (r < 100 - thresholdErrorRate))

/-- Embedding of `AlertManager.check_alerts`.  `analysis` carries the
`success_rate` entry of the analysis dict: `none` embeds a falsy/absent
dict.  Returns the emitted alerts (in branch order: cpu, memory, error
rate) and the updated `active_alerts` set.  The event argument of the
error-rate block uses `analysis.getD 0`, which equals the dict's
`success_rate` whenever the block's condition holds (the event is unused
otherwise). -/
def check_alerts (metrics : Metrics) (analysis : Option ℚ) (st : List String) :
    List AlertEvent × List String :=
  let cpuVal := metrics.cpu_usage_percent.getD 0
  let step1 := alertStep (thresholdCpu < cpuVal) "high_cpu" (cpuAlertEvent cpuVal) st
  let memVal := metrics.memory_usage_percent.getD 0
  let step2 :=
    alertStep (thresholdMemory < memVal) "high_memory" (memoryAlertEvent memVal) step1.2
  let step3 :=
    alertStep (errRateCond analysis) "high_error_rate"
      (errorRateAlertEvent (analysis.getD 0)) step2.2
  (step1.1 ++ step2.1 ++ step3.1, step3.2)

/-! ## ConnectionManager.broadcast (identical in both backend files) -/

/-- A WebSocket connection handle: `cid` is its identity, `ok` tells
whether `send_text` on it succeeds or raises. -/
structure Conn where
  cid : Nat
  ok : Bool
deriving DecidableEq, Repr

/-- Embedding of the loop of `ConnectionManager.broadcast`.  A Python
`for` statement over a list keeps an integer cursor into the *live* list,
so `self.active_connections.remove(connection)` inside the loop shifts the
remaining elements left under the cursor.  `delivered` collects, in order,
the ids of the connections whose send succeeded during this call. -/
def broadcastGo : Nat → List Conn → Nat → List Nat → List Conn × List Nat
  | 0, conns, _, delivered => (conns, delivered)
  | fuel + 1, conns, idx, delivered =>
    if h : idx < conns.length then
      let c := conns.get ⟨idx, h⟩
      if c.ok then broadcastGo fuel conns (idx + 1) (delivered ++ [c.cid])
      else broadcastGo fuel (conns.erase c) (idx + 1) delivered
    else (conns, delivered)

/-- Embedding of `ConnectionManager.broadcast`: returns the connection
list after the call and the ids that received the payload.  The loop runs
at most `conns.length` iterations (the cursor grows by one per iteration
and the list never grows), so `conns.length + 1` units of fuel make the
fuel bound unreachable. -/
def broadcast (conns : List Conn) : List Conn × List Nat :=
  broadcastGo (conns.length + 1) conns 0 []

/-! ## The update path and the HTTP endpoints -/

/-- State of the log file on disk: absent, present but unreadable
(`open`/`read` raises `OSError`), or present with the given content. -/
inductive FileState where
  | missing
  | unreadable
  | readable (content : String)
deriving DecidableEq, Repr

/-- Embedding of `os.path.exists(LOG_FILE_PATH)`. -/
def fsExists : FileState → Bool
  | .missing => false
  | _ => true

/-- Embedding of `open(path).read()`: raises unless the file is readable. -/
def readLog : FileState → Except String String
  | .missing => Except.error "FileNotFoundError"
  | .unreadable => Except.error "OSError"
  | .readable c => Except.ok c

/-- A message sent over the WebSocket by the update path (timestamps
omitted): either an `"update"` payload or an `"error"` payload. -/
inductive WsMessage where
  | update (analysis : Snapshot) (summary : String)
  | errorMsg (message : String)
deriving DecidableEq, Repr

/-- The hardcoded empty analysis dict of `check_for_updates` in
`backend/main.py` (note its `success_rate` is `100.0`). -/
def zeroSnapshot : Snapshot :=
  { total_requests := 0, status_code_distribution := [], error_count := 0,
    success_rate := 100 }

/-- The `try` body of `check_for_updates` in `backend/main.py`: if the log
file exists, read it (which may raise) and send an update; otherwise send
the hardcoded zero-valued update. -/
def check_for_updates_main_try (fs : FileState) : Except String (Option WsMessage) := do
  if fsExists fs then
    let logs ← readLog fs
    pure (some (WsMessage.update (analyze_logs logs) (analyze_logs_simple logs)))
  else
    pure (some (WsMessage.update zeroSnapshot "No log file found"))

/-- Embedding of `check_for_updates` in `backend/main.py`: the surrounding
`except` clause swallows every exception without sending anything, so the
function is total and never propagates a failure to the caller. -/
def check_for_updates_main (fs : FileState) : Option WsMessage :=
  match check_for_updates_main_try fs with
  | Except.ok m => m
  | Except.error _ => none

/-- The `try` body of `check_for_updates` in `backend/app/main.py`: same
readable branch, but there is no `else` branch — a missing file sends
nothing at all. -/
def check_for_updates_app_try (fs : FileState) : Except String (Option WsMessage) := do
  if fsExists fs then
    let logs ← readLog fs
    pure (some (WsMessage.update (analyze_logs logs) (analyze_logs_simple logs)))
  else
    pure none

/-- Embedding of `check_for_updates` in `backend/app/main.py`: the
`except` clause attempts to send an `"error"` message built from the
exception text (and swallows a failure of that send as well). -/
def check_for_updates_app (fs : FileState) : Option WsMessage :=
  match check_for_updates_app_try fs with
  | Except.ok m => m
  | Except.error e => some (WsMessage.errorMsg ("Error updating data: " ++ e))

/-- Response bodies returned by the four HTTP log endpoints. -/
inductive HttpBody where
  | logsBody (s : String)
  | errorLogsRaw (s : String)
  | errorLogsParsed (ls : List String)
  | summaryBody (s : String)
  | analysisBody (a : Snapshot)
  | errBody (msg : String) (path : String)
deriving DecidableEq, Repr

def LOG_FILE_PATH_main : String := "/app/nginx-logs/logs/access.log"

def ERROR_LOG_FILE_PATH_main : String := "/app/nginx-logs/logs/error.log"

def LOG_FILE_PATH_app : String := "./nginx-logs/logs/access.log"

/-- Embedding of `GET /get_logs/` in `backend/main.py`.  A handler that
returns a dict is serialised by FastAPI with HTTP status 200; `.ok body`
stands for that.  An exception escaping the handler (reading an
unreadable file) is `.error`. -/
def get_logs_main (fs : FileState) : Except String HttpBody :=
  if fsExists fs then do
    let logs ← readLog fs
    pure (HttpBody.logsBody logs)
  else pure (HttpBody.errBody "Log file not found" LOG_FILE_PATH_main)

/-- Embedding of `GET /get_error_logs/` in `backend/main.py`: reads the
*error* log file and returns its raw text; note the distinct error body. -/
def get_error_logs_main (fs : FileState) : Except String HttpBody :=
  if fsExists fs then do
    let txt ← readLog fs
    pure (HttpBody.errorLogsRaw txt)
  else pure (HttpBody.errBody "Error log file not found" ERROR_LOG_FILE_PATH_main)

/-- Embedding of `GET /summarize_logs/` in `backend/main.py`. -/
def summarize_logs_endpoint_main (fs : FileState) : Except String HttpBody :=
  if fsExists fs then do
    let logs ← readLog fs
    pure (HttpBody.summaryBody (analyze_logs_simple logs))
  else pure (HttpBody.errBody "Log file not found" LOG_FILE_PATH_main)

/-- Embedding of `GET /analyze_logs/` in `backend/main.py`. -/
def analyze_logs_endpoint_main (fs : FileState) : Except String HttpBody :=
  if fsExists fs then do
    let logs ← readLog fs
    pure (HttpBody.analysisBody (analyze_logs logs))
  else pure (HttpBody.errBody "Log file not found" LOG_FILE_PATH_main)

/-- Embedding of `GET /get_logs/` in `backend/app/main.py`. -/
def get_logs_app (fs : FileState) : Except String HttpBody :=
  if fsExists fs then do
    let logs ← readLog fs
    pure (HttpBody.logsBody logs)
  else pure (HttpBody.errBody "Log file not found" LOG_FILE_PATH_app)

/-- Embedding of `GET /get_error_logs/` in `backend/app/main.py`: reads
the access log and returns `parse_logs` of it. -/
def get_error_logs_app (fs : FileState) : Except String HttpBody :=
  if fsExists fs then do
    let logs ← readLog fs
    pure (HttpBody.errorLogsParsed (parse_logs logs))
  else pure (HttpBody.errBody "Log file not found" LOG_FILE_PATH_app)

/-- Embedding of `GET /summarize_logs/` in `backend/app/main.py`. -/
def summarize_logs_endpoint_app (fs : FileState) : Except String HttpBody :=
  if fsExists fs then do
    let logs ← readLog fs
    pure (HttpBody.summaryBody (analyze_logs_simple logs))
  else pure (HttpBody.errBody "Log file not found" LOG_FILE_PATH_app)

/-- Embedding of `GET /analyze_logs/` in `backend/app/main.py`. -/
def analyze_logs_endpoint_app (fs : FileState) : Except String HttpBody :=
  if fsExists fs then do
    let logs ← readLog fs
    pure (HttpBody.analysisBody (analyze_logs logs))
  else pure (HttpBody.errBody "Log file not found" LOG_FILE_PATH_app)

/-! ## A concrete example log with statuses 200, 201, 404, 500 -/

def exLine1 : String :=
  "192.168.1.1 - - [28/Jun/2025:10:00:00 +0000] \"GET / HTTP/1.1\" 200 612 \"-\" \"Mozilla/5.0\""

def exLine2 : String :=
  "192.168.1.2 - - [28/Jun/2025:10:00:01 +0000] \"POST /api/data HTTP/1.1\" 201 43 \"-\" \"curl/7.68.0\""

def exLine3 : String :=
  "192.168.1.3 - - [28/Jun/2025:10:00:02 +0000] \"GET /notfound HTTP/1.1\" 404 123 \"-\" \"Mozilla/5.0\""

def exLine4 : String :=
  "192.168.1.4 - - [28/Jun/2025:10:00:03 +0000] \"GET /error HTTP/1.1\" 500 99 \"-\" \"Mozilla/5.0\""

def exLog : String :=
  exLine1 ++ "\n" ++ exLine2 ++ "\n" ++ exLine3 ++ "\n" ++ exLine4 ++ "\n"

/-- Metrics dict with cpu at 85.0 and others nominal. -/
def exMetricsHigh : Metrics :=
  { cpu_usage_percent := some 85, memory_usage_percent := some 50 }

/-- Metrics dict with cpu back at 50.0 and others nominal. -/
def exMetricsNormal : Metrics :=
  { cpu_usage_percent := some 50, memory_usage_percent := some 50 }

/-- Numeric value of a digit token (most significant digit first). -/
def tokVal (tok : List Char) : Nat :=
  tok.foldl (fun acc c => 10 * acc + (c.toNat - 48)) 0

/-- The specification's wording for the server-error extraction, written
from the spec (not from the code), to be compared with the embedded regex
search: the line contains a standalone 3-digit token whose value is in
[500, 599], bounded by whitespace on both sides. -/
def hasServer5xxToken (l : List Char) : Prop :=
  ∃ (pre post tok : List Char) (w1 w2 : Char),
    l = pre ++ [w1] ++ tok ++ [w2] ++ post ∧
    isPySpace w1 = true ∧ isPySpace w2 = true ∧
    tok.length = 3 ∧ (∀ c ∈ tok, isPyDigit c = true) ∧
    500 ≤ tokVal tok ∧ tokVal tok ≤ 599

/-- The specification's wording for the digest's error-code list, written
from the spec (not from the code), to be compared with the embedded
`errTop3`: up to the 3 most frequent *error* status codes, sorted by
descending count with ties broken by first-occurrence order (the
distribution list is in first-occurrence order and insertion sort is
stable, so a stable descending sort of the filtered list realises the
tie-breaking rule). -/
def errTop3Spec (counts : List (String × Nat)) : List String :=
  ((List.insertionSort countGE (counts.filter fun kv => isErrStatus kv.1)).map
    Prod.fst).take 3

/-- The success rate as computed inside `analyze_logs` and
`analyze_logs_simple`. -/
def successRateQ (T : String) : ℚ :=
  if 0 < (pySplitlines T).length then
    (((pySplitlines T).length : ℚ) -
      ((tally (pySplitlines T) [] []).2.length : ℚ)) /
      ((pySplitlines T).length : ℚ) * 100
  else 0

/-- The first four lines of the digest built by `analyze_logs_simple`. -/
def summaryBase (T : String) : String :=
  "Log Analysis Summary:\n" ++
  "- Total requests: " ++ natRepr (pySplitlines T).length ++ "\n" ++
  "- Error requests: " ++ natRepr (tally (pySplitlines T) [] []).2.length ++ "\n" ++
  "- Success rate: " ++ format1 (successRateQ T) ++ "%\n"

/-! ## Bookkeeping lemmas about the counting loop -/

/-- Sum of all counts of a status-code distribution. -/
def sumCounts (l : List (String × Nat)) : Nat := (l.map Prod.snd).sum

/-- Sum of the counts of the keys starting with a `'4'` or a `'5'`. -/
def sumErrCounts (l : List (String × Nat)) : Nat :=
  ((l.filter fun kv => isErrStatus kv.1).map Prod.snd).sum

/-- Number of lines on which the status pattern matches. -/
def parsableCount (lines : List String) : Nat :=
  (lines.filter fun line => (statusSearch line.data).isSome).length

/-- A line counted as an error request: its status parses and starts with
a `'4'` or a `'5'`. -/
def isErrLine (line : String) : Bool :=
  match statusSearch line.data with
  | some st => isErrStatus st
  | none => false

lemma sumCounts_bumpCount (l : List (String × Nat)) (s : String) :
    sumCounts (bumpCount l s) = sumCounts l + 1 := by
  induction l with
  | nil => simp [bumpCount, sumCounts]
  | cons kv rest ih =>
    obtain ⟨k, v⟩ := kv
    by_cases h : k = s
    · simp [bumpCount, h, sumCounts]
      omega
    · simp [bumpCount, h, sumCounts] at ih ⊢
      omega

lemma sumErrCounts_bumpCount (l : List (String × Nat)) (s : String) :
    sumErrCounts (bumpCount l s) =
      sumErrCounts l + (if isErrStatus s then 1 else 0) := by
  induction l with
  | nil => by_cases h : isErrStatus s <;> simp [bumpCount, sumErrCounts, h]
  | cons kv rest ih =>
    obtain ⟨k, v⟩ := kv
    by_cases hk : k = s
    · subst hk
      by_cases he : isErrStatus k <;> (simp [bumpCount, sumErrCounts, he]; try omega)
    · by_cases he : isErrStatus k <;>
        (simp [bumpCount, hk, sumErrCounts, he] at ih ⊢; omega)

lemma tally_fst_sum (lines : List String) : ∀ counts errs,
    sumCounts (tally lines counts errs).1 = sumCounts counts + parsableCount lines := by
  induction lines with
  | nil => intro counts errs; simp [tally, parsableCount]
  | cons line rest ih =>
    intro counts errs
    cases h : statusSearch line.data with
    | none => simp [tally, h, ih, parsableCount]
    | some st =>
      simp [tally, h, ih, sumCounts_bumpCount, parsableCount]
      omega

lemma tally_snd (lines : List String) : ∀ counts errs,
    (tally lines counts errs).2 = errs ++ lines.filter isErrLine := by
  induction lines with
  | nil => intro counts errs; simp [tally]
  | cons line rest ih =>
    intro counts errs
    cases h : statusSearch line.data with
    | none => simp [tally, h, ih, isErrLine]
    | some st =>
      by_cases he : isErrStatus st <;> simp [tally, h, he, ih, isErrLine]

lemma tally_fst_errSum (lines : List String) : ∀ counts errs,
    sumErrCounts (tally lines counts errs).1 =
      sumErrCounts counts + (lines.filter isErrLine).length := by
  induction lines with
  | nil => intro counts errs; simp [tally]
  | cons line rest ih =>
    intro counts errs
    cases h : statusSearch line.data with
    | none => simp [tally, h, ih, isErrLine]
    | some st =>
      by_cases he : isErrStatus st <;>
        (simp [tally, h, he, ih, sumErrCounts_bumpCount, isErrLine]; try omega)

/-! ## Claim theorems: broadcast, totals, empty input, update path, endpoints -/

/-- C1: the program is evaluated at a broadcast over three registered
subscribers whose first send fails.  The failed subscriber (id 0) is
removed from the subscriber list, as the claim states, but the healthy
subscriber registered immediately after it (id 1) is silently skipped by
the remove-while-iterating loop and does not receive the payload in that
call: only id 2 is delivered to, refuting "every other registered
subscriber still receives the payload". -/
theorem broadcast_skips_subscriber_after_failure :
    broadcast [⟨0, false⟩, ⟨1, true⟩, ⟨2, true⟩] = ([⟨1, true⟩, ⟨2, true⟩], [2]) ∧
    (1 : Nat) ∉ (broadcast [⟨0, false⟩, ⟨1, true⟩, ⟨2, true⟩]).2 :=
  ⟨by decide, by decide⟩

/-- C2 (counterexample): on the one-line text `"x"`, which has no
parsable status token, `total_requests` is `1` (the raw line count) while
the distribution is empty, so `total_requests` differs from the sum of
the distribution counts, refuting the claim as stated. -/
theorem analyze_logs_total_counts_unparsable :
    (analyze_logs "x").total_requests = 1 ∧
    sumCounts (analyze_logs "x").status_code_distribution = 0 ∧
    (analyze_logs "x").total_requests ≠
      sumCounts (analyze_logs "x").status_code_distribution :=
  ⟨by decide, by decide, by decide⟩

/-- C2 (amended): `total_requests` equals the raw line count — lines
without a parsable status token still count toward it, so it is an upper
bound of (not equal to) the distribution sum; the distribution sum counts
exactly the parsable lines, and `error_count` does equal the sum of the
distribution counts of the keys starting with `'4'` or `'5'`. -/
theorem analyze_logs_distribution_totals (T : String) :
    (analyze_logs T).total_requests = (pySplitlines T).length ∧
    sumCounts (analyze_logs T).status_code_distribution =
      parsableCount (pySplitlines T) ∧
    sumCounts (analyze_logs T).status_code_distribution ≤
      (analyze_logs T).total_requests ∧
    (analyze_logs T).error_count =
      sumErrCounts (analyze_logs T).status_code_distribution := by
  have h1 : (analyze_logs T).total_requests = (pySplitlines T).length := rfl
  have h2 : (analyze_logs T).status_code_distribution =
      (tally (pySplitlines T) [] []).1 := rfl
  have h3 : (analyze_logs T).error_count =
      (tally (pySplitlines T) [] []).2.length := rfl
  refine ⟨h1, ?_, ?_, ?_⟩
  · rw [h2, tally_fst_sum]
    simp [sumCounts]
  · rw [h2, h1, tally_fst_sum]
    simp only [sumCounts, List.map_nil, List.sum_nil, Nat.zero_add, parsableCount]
    exact List.length_filter_le _ _
  · rw [h3, h2, tally_fst_errSum, tally_snd]
    simp [sumErrCounts]

/-- C3 (counterexample): `analyze_logs ""` has `success_rate` exactly `0`
(the Python `else 0` branch), not `100.0` as the claim states. -/
theorem analyze_logs_empty_success_rate_zero :
    (analyze_logs "").success_rate = 0 ∧ (analyze_logs "").success_rate ≠ 100 :=
  ⟨by decide, by decide⟩

/-- C3 (amended): `analyze_logs ""` returns zero total requests, an empty
distribution and zero errors, but its `success_rate` is `0`, and in
general `success_rate` is defined as `0` (not `100.0`) whenever
`total_requests = 0`. -/
theorem analyze_logs_empty_input_spec :
    analyze_logs "" =
      { total_requests := 0, status_code_distribution := [],
        error_count := 0, success_rate := 0 } ∧
    ∀ T, (analyze_logs T).total_requests = 0 → (analyze_logs T).success_rate = 0 := by
  constructor
  · with_unfolding_all rfl
  · intro T h
    have hlen : (pySplitlines T).length = 0 := h
    have hrate : (analyze_logs T).success_rate =
        if 0 < (pySplitlines T).length then
          (((pySplitlines T).length : ℚ) -
            ((tally (pySplitlines T) [] []).2.length : ℚ)) /
            ((pySplitlines T).length : ℚ) * 100
        else 0 := rfl
    rw [hrate, hlen]
    norm_num

/-- Witness for C3: the amended statement applied at the concrete empty
input. -/
theorem analyze_logs_empty_input_spec_witness :
    (analyze_logs "").success_rate = 0 :=
  analyze_logs_empty_input_spec.2 "" (by decide)

/-- C6 (counterexample): in `backend/app/main.py` a missing log file
makes `check_for_updates` send nothing at all (there is no `else`
branch), and in `backend/main.py` an unreadable (but existing) log file
makes the `except` clause swallow the error without sending anything —
in both cases no zero-valued update payload is sent, refuting the claim
as stated. -/
theorem check_for_updates_missing_source_counterexample :
    check_for_updates_app FileState.missing = none ∧
    check_for_updates_main FileState.unreadable = none :=
  ⟨rfl, rfl⟩

/-- C6 (amended): only `backend/main.py` and only for a *missing* file
sends the zero-valued snapshot (`total_requests = 0`, empty distribution,
`error_count = 0`, `success_rate = 100.0`) with the descriptive summary
string `"No log file found"`; an unreadable file there sends nothing that
cycle, `backend/app/main.py` sends nothing for a missing file and an
`"error"`-type message for an unreadable one.  In every case the
embedded `check_for_updates` functions are total — the `except` clauses
swallow the read failure, so it never propagates to end the subscriber's
connection. -/
theorem check_for_updates_source_failure_spec :
    check_for_updates_main FileState.missing =
      some (WsMessage.update zeroSnapshot "No log file found") ∧
    zeroSnapshot =
      { total_requests := 0, status_code_distribution := [],
        error_count := 0, success_rate := 100 } ∧
    check_for_updates_main FileState.unreadable = none ∧
    check_for_updates_app FileState.missing = none ∧
    check_for_updates_app FileState.unreadable =
      some (WsMessage.errorMsg "Error updating data: OSError") ∧
    (∀ c, check_for_updates_main (FileState.readable c) =
      some (WsMessage.update (analyze_logs c) (analyze_logs_simple c))) ∧
    (∀ c, check_for_updates_app (FileState.readable c) =
      some (WsMessage.update (analyze_logs c) (analyze_logs_simple c))) :=
  ⟨rfl, rfl, rfl, rfl, rfl, fun _ => rfl, fun _ => rfl⟩

/-- C8 (counterexample): `GET /get_error_logs/` in `backend/main.py`
answers a missing source with the body
`{"error": "Error log file not found", "path": ...}` — a different error
message (and a different file path) than the
`{"error": "Log file not found", ...}` body the claim prescribes for all
four endpoints. -/
theorem get_error_logs_main_error_body_counterexample :
    get_error_logs_main FileState.missing =
      Except.ok (HttpBody.errBody "Error log file not found" ERROR_LOG_FILE_PATH_main) ∧
    HttpBody.errBody "Error log file not found" ERROR_LOG_FILE_PATH_main ≠
      HttpBody.errBody "Log file not found" ERROR_LOG_FILE_PATH_main :=
  ⟨rfl, by decide⟩

/-- C8 (amended): when the source exists and is readable every endpoint
returns its corresponding output with HTTP 200 (`Except.ok`), and when
the source is absent every endpoint returns an error body with HTTP 200;
the error body is `{"error": "Log file not found", "path": ...}` for all
four `backend/app/main.py` endpoints and for three of the
`backend/main.py` endpoints, but `backend/main.py`'s
`/get_error_logs/` reads the separate nginx *error* log, serves its raw
text rather than LogAnalyzer output, and answers absence with
`{"error": "Error log file not found", "path": ...}`. -/
theorem endpoints_missing_source_spec :
    (∀ c, get_logs_main (FileState.readable c) = Except.ok (HttpBody.logsBody c)) ∧
    get_logs_main FileState.missing =
      Except.ok (HttpBody.errBody "Log file not found" LOG_FILE_PATH_main) ∧
    (∀ c, summarize_logs_endpoint_main (FileState.readable c) =
      Except.ok (HttpBody.summaryBody (analyze_logs_simple c))) ∧
    summarize_logs_endpoint_main FileState.missing =
      Except.ok (HttpBody.errBody "Log file not found" LOG_FILE_PATH_main) ∧
    (∀ c, analyze_logs_endpoint_main (FileState.readable c) =
      Except.ok (HttpBody.analysisBody (analyze_logs c))) ∧
    analyze_logs_endpoint_main FileState.missing =
      Except.ok (HttpBody.errBody "Log file not found" LOG_FILE_PATH_main) ∧
    (∀ c, get_error_logs_main (FileState.readable c) =
      Except.ok (HttpBody.errorLogsRaw c)) ∧
    get_error_logs_main FileState.missing =
      Except.ok (HttpBody.errBody "Error log file not found" ERROR_LOG_FILE_PATH_main) ∧
    (∀ c, get_logs_app (FileState.readable c) = Except.ok (HttpBody.logsBody c)) ∧
    get_logs_app FileState.missing =
      Except.ok (HttpBody.errBody "Log file not found" LOG_FILE_PATH_app) ∧
    (∀ c, get_error_logs_app (FileState.readable c) =
      Except.ok (HttpBody.errorLogsParsed (parse_logs c))) ∧
    get_error_logs_app FileState.missing =
      Except.ok (HttpBody.errBody "Log file not found" LOG_FILE_PATH_app) ∧
    (∀ c, summarize_logs_endpoint_app (FileState.readable c) =
      Except.ok (HttpBody.summaryBody (analyze_logs_simple c))) ∧
    summarize_logs_endpoint_app FileState.missing =
      Except.ok (HttpBody.errBody "Log file not found" LOG_FILE_PATH_app) ∧
    (∀ c, analyze_logs_endpoint_app (FileState.readable c) =
      Except.ok (HttpBody.analysisBody (analyze_logs c))) ∧
    analyze_logs_endpoint_app FileState.missing =
      Except.ok (HttpBody.errBody "Log file not found" LOG_FILE_PATH_app) :=
  ⟨fun _ => rfl, rfl, fun _ => rfl, rfl, fun _ => rfl, rfl, fun _ => rfl, rfl,
   fun _ => rfl, rfl, fun _ => rfl, rfl, fun _ => rfl, rfl, fun _ => rfl, rfl⟩

/-! ## C4: the alert engine -/

lemma mem_setAdd {l : List String} {x y : String} :
    y ∈ setAdd l x ↔ y ∈ l ∨ y = x := by
  unfold setAdd
  split_ifs with h
  · constructor
    · exact Or.inl
    · rintro (hy | rfl)
      · exact hy
      · exact h
  · simp [List.mem_append]

lemma setAdd_nodup {l : List String} {x : String} (h : l.Nodup) :
    (setAdd l x).Nodup := by
  unfold setAdd
  split_ifs with hx
  · exact h
  · simp [List.nodup_append, h, hx]

lemma alertStep_state_self (cond : Prop) [Decidable cond] (rid : String)
    (ev : AlertEvent) (st : List String) (h : st.Nodup) :
    rid ∈ (alertStep cond rid ev st).2 ↔ cond := by
  unfold alertStep
  split_ifs with hc hm
  · exact iff_of_true hm hc
  · simp [mem_setAdd, hc]
  · simp [setDiscard, List.Nodup.mem_erase_iff h, hc]

lemma alertStep_state_other (cond : Prop) [Decidable cond] {rid : String}
    (ev : AlertEvent) {st : List String} {y : String} (hy : y ≠ rid) :
    y ∈ (alertStep cond rid ev st).2 ↔ y ∈ st := by
  unfold alertStep
  split_ifs with hc hm
  · exact Iff.rfl
  · simp [mem_setAdd, hy]
  · exact List.mem_erase_of_ne hy

lemma alertStep_nodup (cond : Prop) [Decidable cond] (rid : String)
    (ev : AlertEvent) (st : List String) (h : st.Nodup) :
    (alertStep cond rid ev st).2.Nodup := by
  unfold alertStep
  split_ifs
  · exact h
  · exact setAdd_nodup h
  · exact h.erase _

lemma alertStep_events (cond : Prop) [Decidable cond] (rid : String)
    (ev : AlertEvent) (st : List String) :
    (alertStep cond rid ev st).1 = if cond ∧ rid ∉ st then [ev] else [] := by
  unfold alertStep
  by_cases hc : cond
  · by_cases hm : rid ∈ st
    · simp [hc, hm]
    · simp [hc, hm]
  · simp [hc]

lemma errRateCond_iff (a : Option ℚ) :
    errRateCond a ↔ ∃ r, a = some r ∧ r < 100 - thresholdErrorRate := by
  cases a <;> simp [errRateCond]

lemma check_alerts_snd (m : Metrics) (a : Option ℚ) (st : List String) :
    (check_alerts m a st).2 =
      (alertStep (errRateCond a) "high_error_rate"
        (errorRateAlertEvent (a.getD 0))
        (alertStep (thresholdMemory < m.memory_usage_percent.getD 0) "high_memory"
          (memoryAlertEvent (m.memory_usage_percent.getD 0))
          (alertStep (thresholdCpu < m.cpu_usage_percent.getD 0) "high_cpu"
            (cpuAlertEvent (m.cpu_usage_percent.getD 0)) st).2).2).2 := rfl

lemma check_alerts_fst (m : Metrics) (a : Option ℚ) (st : List String) :
    (check_alerts m a st).1 =
      (alertStep (thresholdCpu < m.cpu_usage_percent.getD 0) "high_cpu"
        (cpuAlertEvent (m.cpu_usage_percent.getD 0)) st).1 ++
      (alertStep (thresholdMemory < m.memory_usage_percent.getD 0) "high_memory"
        (memoryAlertEvent (m.memory_usage_percent.getD 0))
        (alertStep (thresholdCpu < m.cpu_usage_percent.getD 0) "high_cpu"
          (cpuAlertEvent (m.cpu_usage_percent.getD 0)) st).2).1 ++
      (alertStep (errRateCond a) "high_error_rate"
        (errorRateAlertEvent (a.getD 0))
        (alertStep (thresholdMemory < m.memory_usage_percent.getD 0) "high_memory"
          (memoryAlertEvent (m.memory_usage_percent.getD 0))
          (alertStep (thresholdCpu < m.cpu_usage_percent.getD 0) "high_cpu"
            (cpuAlertEvent (m.cpu_usage_percent.getD 0)) st).2).2).1 := rfl

/-- C4: after every `check_alerts` call, each rule id is active iff its
predicate holds on the inputs (cpu > 80, memory > 85, success rate < 90
with a truthy analysis dict); the emitted events are exactly one event
per rule whose predicate holds and whose id was not active before the
call, in fixed rule order; and the concrete scenario: cpu = 85.0 with
others nominal emits exactly the `high_cpu` event, an identical second
call emits nothing, a cpu = 50.0 call emits nothing and clears the
active set, and a subsequent cpu = 85.0 call re-emits the event. -/
theorem check_alerts_spec :
    (∀ (m : Metrics) (a : Option ℚ) (st : List String), st.Nodup →
      (("high_cpu" ∈ (check_alerts m a st).2) ↔
        thresholdCpu < m.cpu_usage_percent.getD 0) ∧
      (("high_memory" ∈ (check_alerts m a st).2) ↔
        thresholdMemory < m.memory_usage_percent.getD 0) ∧
      (("high_error_rate" ∈ (check_alerts m a st).2) ↔
        (∃ r, a = some r ∧ r < 100 - thresholdErrorRate)) ∧
      (check_alerts m a st).1 =
        (if thresholdCpu < m.cpu_usage_percent.getD 0 ∧ "high_cpu" ∉ st then
          [cpuAlertEvent (m.cpu_usage_percent.getD 0)] else []) ++
        (if thresholdMemory < m.memory_usage_percent.getD 0 ∧ "high_memory" ∉ st then
          [memoryAlertEvent (m.memory_usage_percent.getD 0)] else []) ++
        (match a with
        | none => []
        | some r =>
          if r < 100 - thresholdErrorRate ∧ "high_error_rate" ∉ st then
            [errorRateAlertEvent r] else [])) ∧
    check_alerts exMetricsHigh (some 95) [] = ([cpuAlertEvent 85], ["high_cpu"]) ∧
    check_alerts exMetricsHigh (some 95) ["high_cpu"] = ([], ["high_cpu"]) ∧
    check_alerts exMetricsNormal (some 95) ["high_cpu"] = ([], []) ∧
    check_alerts exMetricsHigh (some 95)
        (check_alerts exMetricsNormal (some 95)
          (check_alerts exMetricsHigh (some 95)
            (check_alerts exMetricsHigh (some 95) []).2).2).2 =
      ([cpuAlertEvent 85], ["high_cpu"]) := by
  refine ⟨?_, by with_unfolding_all rfl, by with_unfolding_all rfl,
    by with_unfolding_all rfl, by with_unfolding_all rfl⟩
  intro m a st hst
  have hn1 := alertStep_nodup (thresholdCpu < m.cpu_usage_percent.getD 0) "high_cpu"
    (cpuAlertEvent (m.cpu_usage_percent.getD 0)) st hst
  have hn2 := alertStep_nodup (thresholdMemory < m.memory_usage_percent.getD 0)
    "high_memory" (memoryAlertEvent (m.memory_usage_percent.getD 0)) _ hn1
  have ne1 : ("high_cpu" : String) ≠ "high_error_rate" := by decide
  have ne2 : ("high_cpu" : String) ≠ "high_memory" := by decide
  have ne3 : ("high_memory" : String) ≠ "high_error_rate" := by decide
  have ne4 : ("high_memory" : String) ≠ "high_cpu" := by decide
  refine ⟨?_, ?_, ?_, ?_⟩
  · rw [check_alerts_snd,
      alertStep_state_other _ _ ne1,
      alertStep_state_other _ _ ne2,
      alertStep_state_self _ _ _ _ hst]
  · rw [check_alerts_snd,
      alertStep_state_other _ _ ne3,
      alertStep_state_self _ _ _ _ hn1]
  · rw [check_alerts_snd, alertStep_state_self _ _ _ _ hn2, errRateCond_iff]
  · rw [check_alerts_fst, alertStep_events, alertStep_events, alertStep_events]
    have e1 : ("high_memory" ∈
        (alertStep (thresholdCpu < m.cpu_usage_percent.getD 0) "high_cpu"
          (cpuAlertEvent (m.cpu_usage_percent.getD 0)) st).2) ↔
        "high_memory" ∈ st :=
      alertStep_state_other _ _ (show ("high_memory" : String) ≠ "high_cpu" by decide)
    have e2 : ("high_error_rate" ∈
        (alertStep (thresholdMemory < m.memory_usage_percent.getD 0) "high_memory"
          (memoryAlertEvent (m.memory_usage_percent.getD 0))
          (alertStep (thresholdCpu < m.cpu_usage_percent.getD 0) "high_cpu"
            (cpuAlertEvent (m.cpu_usage_percent.getD 0)) st).2).2) ↔
        "high_error_rate" ∈ st := by
      rw [alertStep_state_other _ _
          (show ("high_error_rate" : String) ≠ "high_memory" by decide),
        alertStep_state_other _ _
          (show ("high_error_rate" : String) ≠ "high_cpu" by decide)]
    cases a with
    | none => simp [errRateCond, e1, e2]
    | some r => simp [errRateCond, e1, e2]

/-- Witness for C4: the specification applied at the concrete scenario
inputs (cpu = 85.0, memory = 50.0, success rate 95.0, empty active set),
discharging the no-duplicates hypothesis there. -/
theorem check_alerts_spec_witness :
    ("high_cpu" ∈ (check_alerts exMetricsHigh (some 95) []).2 ↔
      thresholdCpu < exMetricsHigh.cpu_usage_percent.getD 0) ∧
    check_alerts exMetricsHigh (some 95) [] = ([cpuAlertEvent 85], ["high_cpu"]) :=
  ⟨(check_alerts_spec.1 exMetricsHigh (some 95) [] (by decide)).1,
    check_alerts_spec.2.1⟩

/-! ## C5: the server-error extraction pattern -/

lemma char_eq_iff_toNat {a b : Char} : a = b ↔ a.toNat = b.toNat :=
  ⟨fun h => h ▸ rfl, fun h => Char.eq_of_val_eq (UInt32.ext h)⟩

lemma isPyDigit_iff (c : Char) :
    isPyDigit c = true ↔ 48 ≤ c.toNat ∧ c.toNat ≤ 57 := by
  simp only [isPyDigit, Bool.and_eq_true, decide_eq_true_eq]
  exact Iff.rfl

lemma token5xx_iff (tok : List Char) :
    (tok.length = 3 ∧ (∀ c ∈ tok, isPyDigit c = true) ∧
      500 ≤ tokVal tok ∧ tokVal tok ≤ 599) ↔
    ∃ d1 d2, tok = ['5', d1, d2] ∧ isPyDigit d1 = true ∧ isPyDigit d2 = true := by
  constructor
  · rintro ⟨hlen, hdig, hlo, hhi⟩
    match tok, hlen with
    | [a, b, c], _ =>
      have ha := (isPyDigit_iff a).mp (hdig a (by simp))
      have hb := (isPyDigit_iff b).mp (hdig b (by simp))
      have hc := (isPyDigit_iff c).mp (hdig c (by simp))
      simp only [tokVal, List.foldl_cons, List.foldl_nil] at hlo hhi
      have ha5 : a = '5' := by
        rw [char_eq_iff_toNat]
        show a.toNat = 53
        omega
      exact ⟨b, c, by rw [ha5], hdig b (by simp), hdig c (by simp)⟩
  · rintro ⟨d1, d2, rfl, h1, h2⟩
    have h1' := (isPyDigit_iff d1).mp h1
    have h2' := (isPyDigit_iff d2).mp h2
    refine ⟨rfl, ?_, ?_, ?_⟩
    · intro c hcm
      simp only [List.mem_cons, List.not_mem_nil, or_false] at hcm
      rcases hcm with rfl | rfl | rfl
      · decide
      · exact h1
      · exact h2
    · simp only [tokVal, List.foldl_cons, List.foldl_nil]
      have h5 : ('5' : Char).toNat = 53 := rfl
      omega
    · simp only [tokVal, List.foldl_cons, List.foldl_nil]
      have h5 : ('5' : Char).toNat = 53 := rfl
      omega

lemma serverErrAt_sound (l : List Char) (h : serverErrAt l = true) :
    ∃ w1 d1 d2 w2 tail, l = w1 :: '5' :: d1 :: d2 :: w2 :: tail ∧
      isPySpace w1 = true ∧ isPyDigit d1 = true ∧ isPyDigit d2 = true ∧
      isPySpace w2 = true := by
  match l, h with
  | [], h => simp [serverErrAt] at h
  | [a], h => simp [serverErrAt] at h
  | [a, b], h => simp [serverErrAt] at h
  | [a, b, c], h => simp [serverErrAt] at h
  | [a, b, c, d], h => simp [serverErrAt] at h
  | a :: b :: c :: d :: e :: tail, h =>
    simp only [serverErrAt, Bool.and_eq_true, decide_eq_true_eq] at h
    obtain ⟨⟨⟨⟨h1, rfl⟩, h3⟩, h4⟩, h5⟩ := h
    exact ⟨a, c, d, e, tail, rfl, h1, h3, h4, h5⟩

lemma serverErrAt_of (w1 d1 d2 w2 : Char) (tail : List Char)
    (h1 : isPySpace w1 = true) (h3 : isPyDigit d1 = true)
    (h4 : isPyDigit d2 = true) (h5 : isPySpace w2 = true) :
    serverErrAt (w1 :: '5' :: d1 :: d2 :: w2 :: tail) = true := by
  simp [serverErrAt, h1, h3, h4, h5]

lemma serverErrSearch_forward (l : List Char) (h : serverErrSearch l = true) :
    hasServer5xxToken l := by
  induction l with
  | nil => simp [serverErrSearch] at h
  | cons c rest ih =>
    simp only [serverErrSearch, Bool.or_eq_true] at h
    rcases h with h | h
    · obtain ⟨w1, d1, d2, w2, tail, heq, hw1, hd1, hd2, hw2⟩ :=
        serverErrAt_sound _ h
      have hp := (token5xx_iff ['5', d1, d2]).mpr ⟨d1, d2, rfl, hd1, hd2⟩
      exact ⟨[], tail, ['5', d1, d2], w1, w2, by rw [heq]; simp,
        hw1, hw2, hp.1, hp.2.1, hp.2.2.1, hp.2.2.2⟩
    · obtain ⟨pre, post, tok, w1, w2, heq, hrest⟩ := ih h
      exact ⟨c :: pre, post, tok, w1, w2, by rw [heq]; simp, hrest⟩

lemma serverErrSearch_backward (l : List Char) (h : hasServer5xxToken l) :
    serverErrSearch l = true := by
  obtain ⟨pre, post, tok, w1, w2, heq, hw1, hw2, hlen, hdig, hlo, hhi⟩ := h
  obtain ⟨d1, d2, rfl, hd1, hd2⟩ := (token5xx_iff tok).mp ⟨hlen, hdig, hlo, hhi⟩
  subst heq
  induction pre with
  | nil =>
    simp only [List.nil_append, List.cons_append, List.singleton_append,
      serverErrSearch, Bool.or_eq_true]
    left
    exact serverErrAt_of w1 d1 d2 w2 post hw1 hd1 hd2 hw2
  | cons p pre ih =>
    simp only [List.cons_append, serverErrSearch, Bool.or_eq_true]
    right
    simpa using ih

/-- C5: for every raw text, a line is kept by `parse_logs` iff it is one
of the text's lines and contains a standalone whitespace-bounded 3-digit
token in [500, 599]; and on the 4-line example with statuses 200, 201,
404, 500 (and size fields that contain no 5xx-looking token) the result
is exactly the 500 line — the 404 line is excluded. -/
theorem parse_logs_spec :
    (∀ (T line : String), line ∈ parse_logs T ↔
      line ∈ pySplitlines T ∧ hasServer5xxToken line.data) ∧
    parse_logs exLog = [exLine4] := by
  constructor
  · intro T line
    unfold parse_logs
    rw [List.mem_filter]
    exact ⟨fun ⟨h1, h2⟩ => ⟨h1, serverErrSearch_forward _ h2⟩,
      fun ⟨h1, h2⟩ => ⟨h1, serverErrSearch_backward _ h2⟩⟩
  · decide

/-! ## C7: the human-readable digest -/

lemma orderedInsert_of_forall {x : String × Nat} {l : List (String × Nat)}
    (h : ∀ y ∈ l, countGE x y) :
    List.orderedInsert countGE x l = x :: l := by
  cases l with
  | nil => rfl
  | cons b m => exact List.orderedInsert_of_le _ _ (h b (by simp))

lemma filter_orderedInsert (p : (String × Nat) → Bool) (x : String × Nat) :
    ∀ l : List (String × Nat), l.Sorted countGE →
    (List.orderedInsert countGE x l).filter p =
      if p x then List.orderedInsert countGE x (l.filter p) else l.filter p := by
  intro l
  induction l with
  | nil => intro _; by_cases hp : p x <;> simp [List.orderedInsert, hp]
  | cons b m ih =>
    intro hs
    have hm : m.Sorted countGE := hs.of_cons
    by_cases hr : countGE x b
    · rw [List.orderedInsert_of_le _ _ hr]
      by_cases hp : p x
      · have hall : ∀ y ∈ (b :: m).filter p, countGE x y := by
          intro y hy
          have hy' := List.mem_of_mem_filter hy
          rcases List.mem_cons.mp hy' with rfl | hym
          · exact hr
          · exact le_trans (List.rel_of_sorted_cons hs y hym) hr
        rw [if_pos hp, orderedInsert_of_forall hall]
        simp [hp]
      · rw [if_neg hp]
        simp [hp]
    · have hins : List.orderedInsert countGE x (b :: m) =
          b :: List.orderedInsert countGE x m := by
        simp [List.orderedInsert, hr]
      rw [hins]
      by_cases hpb : p b <;> by_cases hp : p x <;>
        simp [List.filter_cons, hpb, hp, ih hm, List.orderedInsert, hr]

lemma filter_insertionSort (p : (String × Nat) → Bool)
    (l : List (String × Nat)) :
    (List.insertionSort countGE l).filter p =
      List.insertionSort countGE (l.filter p) := by
  induction l with
  | nil => rfl
  | cons x m ih =>
    have h1 : List.insertionSort countGE (x :: m) =
        List.orderedInsert countGE x (List.insertionSort countGE m) := rfl
    rw [h1, filter_orderedInsert p x _ (List.sorted_insertionSort countGE m)]
    by_cases hp : p x <;> simp [hp, List.filter_cons, ih, List.insertionSort]

lemma errTop3_eq_spec (counts : List (String × Nat)) :
    errTop3 counts = errTop3Spec counts := by
  unfold errTop3 errTop3Spec
  rw [filter_insertionSort]

lemma analyze_logs_simple_unfold (T : String) :
    analyze_logs_simple T =
      if (tally (pySplitlines T) [] []).2.isEmpty then summaryBase T
      else summaryBase T ++ errCodesMarker ++
        joinSep ", " (errTop3 (tally (pySplitlines T) [] []).1) ++ "\n" := rfl

/-- C7: for every raw text, the digest is exactly the total-request line,
the error-request line, the success-rate line (one decimal place) and —
when error lines exist — the list of up to the 3 most frequent error
status codes sorted by descending count with ties broken by
first-occurrence order (`errTop3Spec`, the spec-side description, proved
equal to the code's sort-then-filter computation); and on the 4-line
example the digest contains "Total requests: 4", "Error requests: 2" and
"Success rate: 50.0%". -/
theorem summarize_digest_spec :
    (∀ T, analyze_logs_simple T =
      "Log Analysis Summary:\n" ++
      "- Total requests: " ++ natRepr (pySplitlines T).length ++ "\n" ++
      "- Error requests: " ++ natRepr (tally (pySplitlines T) [] []).2.length ++ "\n" ++
      "- Success rate: " ++
        format1 (if 0 < (pySplitlines T).length then
          (((pySplitlines T).length : ℚ) -
            ((tally (pySplitlines T) [] []).2.length : ℚ)) /
            ((pySplitlines T).length : ℚ) * 100 else 0) ++ "%\n" ++
      (if (tally (pySplitlines T) [] []).2.isEmpty then "" else
        errCodesMarker ++
          joinSep ", " (errTop3Spec (tally (pySplitlines T) [] []).1) ++ "\n")) ∧
    ("Total requests: 4".data <:+: (analyze_logs_simple exLog).data) ∧
    ("Error requests: 2".data <:+: (analyze_logs_simple exLog).data) ∧
    ("Success rate: 50.0%".data <:+: (analyze_logs_simple exLog).data) ∧
    ("Most common error status codes: 404, 500".data <:+:
      (analyze_logs_simple exLog).data) := by
  refine ⟨?_, ?_, ?_, ?_, ?_⟩
  · intro T
    rw [analyze_logs_simple_unfold, errTop3_eq_spec]
    by_cases he : (tally (pySplitlines T) [] []).2.isEmpty <;>
      simp [he, summaryBase, successRateQ, String.append_assoc]
  · exact ⟨"Log Analysis Summary:\n- ".data,
      ("\n- Error requests: 2\n- Success rate: 50.0%\n" ++
        "- Most common error status codes: 404, 500\n").data,
      by with_unfolding_all rfl⟩
  · exact ⟨"Log Analysis Summary:\n- Total requests: 4\n- ".data,
      "\n- Success rate: 50.0%\n- Most common error status codes: 404, 500\n".data,
      by with_unfolding_all rfl⟩
  · exact ⟨"Log Analysis Summary:\n- Total requests: 4\n- Error requests: 2\n- ".data,
      "\n- Most common error status codes: 404, 500\n".data,
      by with_unfolding_all rfl⟩
  · exact ⟨("Log Analysis Summary:\n- Total requests: 4\n- Error requests: 2\n" ++
      "- Success rate: 50.0%\n- ").data,
      "\n".data,
      by with_unfolding_all rfl⟩

/-! ## C9: totality on arbitrary input -/

/-- C9: the analyzer operations are embedded by total functions — the
Python bodies use only operations (splitting, regex scanning, counting,
arithmetic with a guarded divisor, formatting) that cannot raise, and the
embedding makes this manifest by terminating on *every* input string.  In
addition the outputs are well-formed on every input, malformed text
included: the extracted error lines form a sublist of the input's lines,
the snapshot counts every raw line, its error count is exactly the
number of lines whose parsed status starts with '4' or '5' (unparsable
lines are excluded rather than failing) and is at most the line count,
and the digest is never empty. -/
theorem analyzer_never_fails (T : String) :
    (parse_logs T).Sublist (pySplitlines T) ∧
    (analyze_logs T).total_requests = (pySplitlines T).length ∧
    (analyze_logs T).error_count = ((pySplitlines T).filter isErrLine).length ∧
    (analyze_logs T).error_count ≤ (analyze_logs T).total_requests ∧
    analyze_logs_simple T ≠ "" := by
  have herr : (analyze_logs T).error_count =
      ((pySplitlines T).filter isErrLine).length := by
    show (tally (pySplitlines T) [] []).2.length = _
    rw [tally_snd]
    simp
  refine ⟨List.filter_sublist _, rfl, herr, ?_, ?_⟩
  · rw [herr]
    show _ ≤ (pySplitlines T).length
    exact List.length_filter_le _ _
  · have hL : ("Log Analysis Summary:\n" : String).data =
        'L' :: ("og Analysis Summary:\n" : String).data := rfl
    have hhead : (analyze_logs_simple T).data.head? = some 'L' := by
      rw [analyze_logs_simple_unfold]
      by_cases he : (tally (pySplitlines T) [] []).2.isEmpty <;>
        simp [he, summaryBase, String.data_append, hL]
    intro heq
    rw [heq] at hhead
    exact absurd hhead (by decide)

/-- Witness for C9: the statement applied at the concrete 4-line log. -/
theorem analyzer_never_fails_witness :
    (parse_logs exLog).Sublist (pySplitlines exLog) ∧
    (analyze_logs exLog).error_count ≤ (analyze_logs exLog).total_requests :=
  ⟨(analyzer_never_fails exLog).1, (analyzer_never_fails exLog).2.2.2.1⟩

/-! ## C10: the error-code line of the digest -/

lemma natDigitChar_digit {n : Nat} (h : n < 10) :
    isPyDigit (natDigitChar n) = true := by
  interval_cases n <;> decide

lemma natReprGo_digits : ∀ (fuel n : Nat) (acc : List Char),
    (∀ c ∈ acc, isPyDigit c = true) →
    ∀ c ∈ natReprGo fuel n acc, isPyDigit c = true := by
  intro fuel
  induction fuel with
  | zero => intro n acc hacc c hc; exact hacc c hc
  | succ fuel ih =>
    intro n acc hacc c hc
    by_cases hn : n < 10
    · simp only [natReprGo, hn, if_true] at hc
      rcases List.mem_cons.mp hc with rfl | hm
      · exact natDigitChar_digit hn
      · exact hacc c hm
    · simp only [natReprGo, hn, if_false] at hc
      refine ih _ _ ?_ c hc
      intro cx hcx
      rcases List.mem_cons.mp hcx with rfl | hm
      · exact natDigitChar_digit (Nat.mod_lt _ (by omega))
      · exact hacc cx hm

lemma natRepr_digits (n : Nat) : ∀ c ∈ (natRepr n).data, isPyDigit c = true :=
  natReprGo_digits (n + 1) n [] (by simp)

lemma format1_chars (q : ℚ) :
    ∀ c ∈ (format1 q).data, isPyDigit c = true ∨ c = '-' ∨ c = '.' := by
  intro c hc
  rw [show format1 q =
    (if roundHalfEven (q * 10) < 0 then "-" else "") ++
      natRepr ((roundHalfEven (q * 10)).natAbs / 10) ++ "." ++
      natRepr ((roundHalfEven (q * 10)).natAbs % 10) from rfl] at hc
  by_cases hn : roundHalfEven (q * 10) < 0
  · rw [if_pos hn] at hc
    simp only [String.data_append, List.mem_append] at hc
    rcases hc with ((hc | hc) | hc) | hc
    · right; left; simpa using hc
    · left; exact natRepr_digits _ _ hc
    · right; right; simpa using hc
    · left; exact natRepr_digits _ _ hc
  · rw [if_neg hn] at hc
    simp only [String.data_append, List.mem_append] at hc
    rcases hc with ((hc | hc) | hc) | hc
    · exact absurd hc (List.not_mem_nil c)
    · left; exact natRepr_digits _ _ hc
    · right; right; simpa using hc
    · left; exact natRepr_digits _ _ hc

lemma no_M_summaryBase (T : String) : 'M' ∉ (summaryBase T).data := by
  intro hM
  simp only [summaryBase, String.data_append, List.mem_append] at hM
  rcases hM with ((((((((h | h) | h) | h) | h) | h) | h) | h) | h) | h
  · exact absurd h (by decide)
  · exact absurd h (by decide)
  · exact absurd (natRepr_digits _ _ h) (by decide)
  · exact absurd h (by decide)
  · exact absurd h (by decide)
  · exact absurd (natRepr_digits _ _ h) (by decide)
  · exact absurd h (by decide)
  · exact absurd h (by decide)
  · rcases format1_chars _ _ h with hx | hx | hx <;> exact absurd hx (by decide)
  · exact absurd h (by decide)

lemma marker_not_infix_summaryBase (T : String) :
    ¬ (errCodesMarker.data <:+: (summaryBase T).data) := by
  intro hinf
  exact no_M_summaryBase T (hinf.subset (by decide))

lemma statusMatchAt_sound (l : List Char) (st : String)
    (h : statusMatchAt l = some st) : ∀ c ∈ st.data, isPyDigit c = true := by
  match l, h with
  | [], h => simp [statusMatchAt] at h
  | [a], h => simp [statusMatchAt] at h
  | [a, b], h => simp [statusMatchAt] at h
  | [a, b, c], h => simp [statusMatchAt] at h
  | [a, b, c, d], h => simp [statusMatchAt] at h
  | [a, b, c, d, e], h => simp [statusMatchAt] at h
  | q :: s1 :: d1 :: d2 :: d3 :: s2 :: rest, h =>
    rw [statusMatchAt] at h
    split_ifs at h with hcond
    · simp only [Option.some.injEq] at h
      subst h
      simp only [Bool.and_eq_true] at hcond
      obtain ⟨⟨⟨⟨⟨hq, hs1⟩, h1⟩, h2⟩, h3⟩, hs2⟩ := hcond
      intro c hc
      have hdata : (String.mk [d1, d2, d3]).data = [d1, d2, d3] := rfl
      rw [hdata] at hc
      rcases List.mem_cons.mp hc with rfl | hcA
      · exact h1
      rcases List.mem_cons.mp hcA with rfl | hcB
      · exact h2
      rcases List.mem_cons.mp hcB with rfl | hcC
      · exact h3
      · exact absurd hcC (by simp)

lemma statusSearch_digits (l : List Char) (st : String)
    (h : statusSearch l = some st) : ∀ c ∈ st.data, isPyDigit c = true := by
  induction l with
  | nil => simp [statusSearch] at h
  | cons a rest ih =>
    rw [statusSearch] at h
    cases hm : statusMatchAt (a :: rest) with
    | some s =>
      rw [hm] at h
      simp only [Option.some.injEq] at h
      subst h
      exact statusMatchAt_sound _ _ hm
    | none =>
      rw [hm] at h
      exact ih h

lemma bumpCount_keys {P : String → Prop} :
    ∀ {l : List (String × Nat)} {s : String},
    (∀ kv ∈ l, P kv.1) → P s → ∀ kv ∈ bumpCount l s, P kv.1 := by
  intro l
  induction l with
  | nil =>
    intro s hl hs kv hkv
    simp [bumpCount] at hkv
    rw [hkv]
    exact hs
  | cons kv0 rest ih =>
    intro s hl hs kv hkv
    obtain ⟨k0, v0⟩ := kv0
    by_cases hk : k0 = s
    · subst hk
      simp only [bumpCount, if_pos rfl] at hkv
      rcases List.mem_cons.mp hkv with rfl | hm
      · exact hl (k0, v0) (by simp)
      · exact hl kv (by simp [hm])
    · simp only [bumpCount, if_neg hk] at hkv
      rcases List.mem_cons.mp hkv with rfl | hm
      · exact hl (k0, v0) (by simp)
      · exact ih (fun kvx hkvx => hl kvx (by simp [hkvx])) hs kv hm

lemma tally_keys_digits (lines : List String) : ∀ counts errs,
    (∀ kv ∈ counts, ∀ c ∈ kv.1.data, isPyDigit c = true) →
    ∀ kv ∈ (tally lines counts errs).1, ∀ c ∈ kv.1.data, isPyDigit c = true := by
  induction lines with
  | nil => intro counts errs h; simpa [tally] using h
  | cons line rest ih =>
    intro counts errs h
    cases hm : statusSearch line.data with
    | none =>
      simp only [tally, hm]
      exact ih _ _ h
    | some st =>
      simp only [tally, hm]
      exact ih _ _
        (bumpCount_keys (P := fun k => ∀ c ∈ k.data, isPyDigit c = true) h
          (statusSearch_digits _ _ hm))

lemma bumpCount_new_key (l : List (String × Nat)) (s : String) :
    s ∈ (bumpCount l s).map Prod.fst := by
  induction l with
  | nil => simp [bumpCount]
  | cons kv rest ih =>
    obtain ⟨k0, v0⟩ := kv
    by_cases hk : k0 = s
    · subst hk
      simp [bumpCount]
    · simp only [bumpCount, if_neg hk, List.map_cons, List.mem_cons]
      right
      exact ih

lemma bumpCount_keys_subset (l : List (String × Nat)) (s : String) :
    ∀ k ∈ l.map Prod.fst, k ∈ (bumpCount l s).map Prod.fst := by
  induction l with
  | nil => simp
  | cons kv rest ih =>
    obtain ⟨k0, v0⟩ := kv
    intro k hk
    by_cases hks : k0 = s
    · subst hks
      simpa [bumpCount] using hk
    · simp only [List.map_cons, List.mem_cons] at hk
      simp only [bumpCount, if_neg hks, List.map_cons, List.mem_cons]
      rcases hk with rfl | hk
      · left; rfl
      · right; exact ih k hk

lemma tally_err_key (lines : List String) : ∀ counts errs,
    (lines.filter isErrLine ≠ [] ∨
      (∃ k ∈ counts.map Prod.fst, isErrStatus k = true)) →
    ∃ k ∈ (tally lines counts errs).1.map Prod.fst, isErrStatus k = true := by
  induction lines with
  | nil =>
    intro counts errs h
    rcases h with h | h
    · simp at h
    · simpa [tally] using h
  | cons line rest ih =>
    intro counts errs h
    cases hm : statusSearch line.data with
    | none =>
      simp only [tally, hm]
      apply ih
      rcases h with h | h
      · left
        intro hc
        apply h
        simpa [List.filter_cons, isErrLine, hm] using hc
      · right; exact h
    | some st =>
      simp only [tally, hm]
      apply ih
      by_cases he : isErrStatus st
      · right
        exact ⟨st, bumpCount_new_key counts st, he⟩
      · rcases h with h | h
        · left
          intro hc
          apply h
          simpa [List.filter_cons, isErrLine, hm, he] using hc
        · right
          obtain ⟨k, hk, hke⟩ := h
          exact ⟨k, bumpCount_keys_subset counts st k hk, hke⟩

lemma errTop3_mem {counts : List (String × Nat)} {k : String}
    (hk : k ∈ errTop3 counts) :
    ∃ kv ∈ counts, kv.1 = k ∧ isErrStatus k = true := by
  unfold errTop3 at hk
  have hksub := List.take_subset _ _ hk
  obtain ⟨kv, hkv, rfl⟩ := List.mem_map.mp hksub
  have h1 := List.mem_of_mem_filter hkv
  have h2 := List.of_mem_filter hkv
  have h3 : kv ∈ counts := (List.perm_insertionSort countGE counts).subset h1
  exact ⟨kv, h3, rfl, h2⟩

lemma errTop3_length_le (counts : List (String × Nat)) :
    (errTop3 counts).length ≤ 3 := by
  unfold errTop3
  exact List.length_take_le _ _

lemma errTop3_length_pos {counts : List (String × Nat)}
    (h : ∃ kv ∈ counts, isErrStatus kv.1 = true) :
    1 ≤ (errTop3 counts).length := by
  obtain ⟨kv, hkv, herr⟩ := h
  have h1 : kv ∈ List.insertionSort countGE counts :=
    ((List.perm_insertionSort countGE counts).mem_iff).mpr hkv
  have h2 : kv ∈ (List.insertionSort countGE counts).filter
      (fun kv => isErrStatus kv.1) :=
    List.mem_filter.mpr ⟨h1, herr⟩
  have h3 : kv.1 ∈ ((List.insertionSort countGE counts).filter
      (fun kv => isErrStatus kv.1)).map Prod.fst :=
    List.mem_map_of_mem _ h2
  have h4 := List.length_pos.mpr (List.ne_nil_of_mem h3)
  unfold errTop3
  rw [List.length_take]
  omega

lemma joinSep_chars {P : Char → Prop} (sep : String)
    (hsep : ∀ c ∈ sep.data, P c) :
    ∀ xs : List String, (∀ x ∈ xs, ∀ c ∈ x.data, P c) →
    ∀ c ∈ (joinSep sep xs).data, P c := by
  intro xs
  induction xs with
  | nil =>
    intro _ c hc
    exact absurd hc (List.not_mem_nil c)
  | cons x tail ih =>
    intro hxs c hc
    cases tail with
    | nil => exact hxs x (by simp) c (by simpa [joinSep] using hc)
    | cons y ys =>
      rw [show joinSep sep (x :: y :: ys) = x ++ sep ++ joinSep sep (y :: ys)
        from rfl] at hc
      simp only [String.data_append, List.mem_append] at hc
      rcases hc with (hc | hc) | hc
      · exact hxs x (by simp) c hc
      · exact hsep c hc
      · exact ih (fun z hz => hxs z (by simp [hz])) c hc

/-- C10: for every input in which no line has a parsed status code
starting with '4' or '5', the digest is exactly the four base lines and
the "Most common error status codes" marker occurs nowhere in it; when at
least one such error line exists, the digest is exactly the base followed
by one marker line whose payload consists only of digit, comma and space
characters (hence a single line containing no further marker), listing
between 1 and 3 status codes; the marker also never occurs in the base. -/
theorem summarize_error_codes_line (T : String) :
    ((pySplitlines T).filter isErrLine = [] →
      analyze_logs_simple T = summaryBase T ∧
      ¬ (errCodesMarker.data <:+: (analyze_logs_simple T).data)) ∧
    ((pySplitlines T).filter isErrLine ≠ [] →
      analyze_logs_simple T =
        summaryBase T ++ errCodesMarker ++
          joinSep ", " (errTop3 (tally (pySplitlines T) [] []).1) ++ "\n" ∧
      ¬ (errCodesMarker.data <:+: (summaryBase T).data) ∧
      (∀ c ∈ (joinSep ", " (errTop3 (tally (pySplitlines T) [] []).1)).data,
        isPyDigit c = true ∨ c = ',' ∨ c = ' ') ∧
      1 ≤ (errTop3 (tally (pySplitlines T) [] []).1).length ∧
      (errTop3 (tally (pySplitlines T) [] []).1).length ≤ 3) := by
  have hsnd : (tally (pySplitlines T) [] []).2 =
      (pySplitlines T).filter isErrLine := by
    rw [tally_snd]
    simp
  constructor
  · intro hempty
    have he : (tally (pySplitlines T) [] []).2.isEmpty = true := by
      rw [hsnd, hempty]
      rfl
    have heq : analyze_logs_simple T = summaryBase T := by
      rw [analyze_logs_simple_unfold, if_pos he]
    refine ⟨heq, ?_⟩
    rw [heq]
    exact marker_not_infix_summaryBase T
  · intro hne
    have he : ¬ ((tally (pySplitlines T) [] []).2.isEmpty = true) := by
      rw [hsnd]
      simpa [List.isEmpty_iff] using hne
    refine ⟨?_, marker_not_infix_summaryBase T, ?_, ?_, errTop3_length_le _⟩
    · rw [analyze_logs_simple_unfold, if_neg he]
    · apply joinSep_chars
      · intro c hc
        have hm : (", " : String).data = [',', ' '] := rfl
        rw [hm] at hc
        rcases List.mem_cons.mp hc with rfl | hcA
        · right; left; rfl
        rcases List.mem_cons.mp hcA with rfl | hcB
        · right; right; rfl
        · exact absurd hcB (by simp)
      · intro x hx c hc
        obtain ⟨kv, hkv, rfl, _⟩ := errTop3_mem hx
        left
        exact tally_keys_digits (pySplitlines T) [] [] (by simp) kv hkv c hc
    · apply errTop3_length_pos
      obtain ⟨k, hk, hke⟩ := tally_err_key (pySplitlines T) [] [] (Or.inl hne)
      obtain ⟨kv, hkv, rfl⟩ := List.mem_map.mp hk
      exact ⟨kv, hkv, hke⟩

/-- Witness for C10: the statement applied at two concrete inputs — the
empty log (no error lines: the digest is the bare base) and the 4-line
example (error lines present: the digest carries exactly one marker line
with at least one status code). -/
theorem summarize_error_codes_line_witness :
    analyze_logs_simple "" = summaryBase "" ∧
    analyze_logs_simple exLog =
      summaryBase exLog ++ errCodesMarker ++
        joinSep ", " (errTop3 (tally (pySplitlines exLog) [] []).1) ++ "\n" ∧
    1 ≤ (errTop3 (tally (pySplitlines exLog) [] []).1).length :=
  ⟨((summarize_error_codes_line "").1 (by decide)).1,
    ((summarize_error_codes_line exLog).2 (by decide)).1,
    ((summarize_error_codes_line exLog).2 (by decide)).2.2.2.1⟩

end AutoSRE
